import Mathlib

/-!
Verification of the todo application's derived-state store and persistence
round trip, shallowly embedded from the TypeScript sources
(`src/utils/todoHelpers.ts`, `src/hooks/useTodos.ts`,
`src/services/storageService.ts`) and, for the windowing computation whose
implementation lives in the external `@tanstack/react-virtual` library, from
the specification's formula.

Machine conventions of the embedding:
- JS strings are Lean `String`s; `.trim()` is `jsTrim`, leading and trailing
  whitespace removal written as structural recursion over the character list
  so that concrete instances evaluate.
- `Date` values are epoch milliseconds (`Nat`); `crypto.randomUUID()` and
  `new Date()` are environment inputs threaded as explicit arguments.
- JS numbers used for statistics are modelled as exact rationals; JS
  `Math.round` rounds half toward positive infinity.
- `throw new Error(msg)` is `Except.error msg`.
-/

namespace TodoApp

/-- Priority enumeration from `types/todo.types.ts` (`'low' | 'medium' | 'high'`). -/
inductive Priority where
  | low
  | medium
  | high
deriving Repr, DecidableEq

/-- The `Todo` record from `types/todo.types.ts`: id, text, completed flag,
creation and update timestamps (epoch ms), optional priority. -/
structure Todo where
  id : String
  text : String
  completed : Bool
  createdAt : Nat
  updatedAt : Nat
  priority : Option Priority
deriving Repr, DecidableEq

/-- Embeds `FilterType` from `types/todo.types.ts` (`'all' | 'active' | 'completed'`). -/
inductive FilterType where
  | all
  | active
  | completed
deriving Repr, DecidableEq

/-- Result shape of `validateTodoText` (`{ valid: boolean; error?: string }`). -/
structure ValidationResult where
  valid : Bool
  error : Option String
deriving Repr, DecidableEq

/-- Embeds `TodoStats` from `types/todo.types.ts`: total, active, completed counts and
completion rate (a JS number, modelled as an exact rational). -/
structure TodoStats where
  total : Nat
  active : Nat
  completed : Nat
  completionRate : ℚ
deriving Repr, DecidableEq

/-- JS `String.prototype.trim`: remove leading and trailing whitespace.
Written over the character list (Lean's built-in trim is defined by
well-founded recursion and does not evaluate definitionally). -/
def jsTrim (s : String) : String :=
  ⟨((s.data.dropWhile Char.isWhitespace).reverse.dropWhile Char.isWhitespace).reverse⟩

/-- JS `Math.round`: nearest integer, halves toward positive infinity. -/
def jsRound (x : ℚ) : ℤ := ⌊x + 1 / 2⌋

/-- Embeds `createTodo` from `todoHelpers.ts`: builds a record with trimmed text,
`completed: false`, both timestamps set to `now`, and the given priority.
The fresh id from `generateId()` (`crypto.randomUUID()`) and the current time
`new Date()` are environment inputs `nid` and `now`. -/
def createTodo (text : String) (priority : Option Priority) (nid : String) (now : Nat) : Todo :=
  { id := nid
    text := jsTrim text
    completed := false
    createdAt := now
    updatedAt := now
    priority := priority }

/-- Embeds `filterTodos` from `todoHelpers.ts`: `active` keeps records with
`!completed`, `completed` keeps records with `completed`, `all` is identity. -/
def filterTodos (todos : List Todo) (filter : FilterType) : List Todo :=
  match filter with
  | .active => todos.filter (fun todo => !todo.completed)
  | .completed => todos.filter (fun todo => todo.completed)
  | .all => todos

/-- Embeds `calculateStats` from `todoHelpers.ts`: one scan counting total and
completed, `active = total - completed`, completion rate
`(completed/total)*100` (0 when `total = 0`) rounded to one decimal via
`Math.round(rate * 10) / 10`. -/
def calculateStats (todos : List Todo) : TodoStats :=
  let total := todos.length
  let completed := (todos.filter (fun todo => todo.completed)).length
  let active := total - completed
  let completionRate : ℚ := if total > 0 then ((completed : ℚ) / (total : ℚ)) * 100 else 0
  { total := total
    active := active
    completed := completed
    completionRate := ((jsRound (completionRate * 10) : ℚ)) / 10 }

/-- Embeds `validateTodoText` from `todoHelpers.ts`: empty after trimming or trimmed
length above 200 characters is invalid, with the corresponding message. -/
def validateTodoText (text : String) : ValidationResult :=
  let trimmed := jsTrim text
  if trimmed.isEmpty then
    { valid := false, error := some "Todo text cannot be empty" }
  else if trimmed.length > 200 then
    { valid := false, error := some "Todo text cannot exceed 200 characters" }
  else
    { valid := true, error := none }

/-- Embeds `addTodo` from `useTodos.ts`: validate, throw the validation error when
invalid, otherwise append `createTodo text priority` to the previous list. -/
def addTodo (todos : List Todo) (text : String) (priority : Option Priority)
    (nid : String) (now : Nat) : Except String (List Todo) :=
  let validation := validateTodoText text
  if !validation.valid then
    .error (validation.error.getD "")
  else
    .ok (todos ++ [createTodo text priority nid now])

/-- Embeds `toggleTodo` from `useTodos.ts`: map over the list flipping `completed` on
records whose id matches, leaving the rest untouched. -/
def toggleTodo (todos : List Todo) (id : String) : List Todo :=
  todos.map (fun todo => if todo.id == id then { todo with completed := !todo.completed } else todo)

/-- Embeds `deleteTodo` from `useTodos.ts`: keep records whose id differs. -/
def deleteTodo (todos : List Todo) (id : String) : List Todo :=
  todos.filter (fun todo => todo.id != id)

/-- Embeds `updateTodo` from `useTodos.ts`: validate the new text, throw on failure,
otherwise map over the list replacing only the `text` field of records whose
id matches (spread `{ ...todo, text }`). -/
def updateTodo (todos : List Todo) (id : String) (text : String) : Except String (List Todo) :=
  let validation := validateTodoText text
  if !validation.valid then
    .error (validation.error.getD "")
  else
    .ok (todos.map (fun todo => if todo.id == id then { todo with text := text } else todo))

/-- Embeds `clearCompleted` from `useTodos.ts`: keep records with `!completed`. -/
def clearCompleted (todos : List Todo) : List Todo :=
  todos.filter (fun todo => !todo.completed)

/-- Store state held by `useTodos`: the canonical todo list and the filter. -/
structure TodoState where
  todos : List Todo
  filter : FilterType
deriving Repr, DecidableEq

/-- A store command, one per handle returned by `useTodos`; `add` carries the
environment inputs (fresh id, timestamp) consumed by `createTodo`. -/
inductive Cmd where
  | add (text : String) (priority : Option Priority) (nid : String) (now : Nat)
  | toggle (id : String)
  | remove (id : String)
  | edit (id : String) (text : String)
  | clearCompleted
  | setFilter (f : FilterType)
deriving Repr, DecidableEq

/-- Apply one command to the store state. A thrown `ValidationError` leaves the
state unchanged (the `setTodos` updater is never invoked on that path). -/
def applyCmd (s : TodoState) : Cmd → TodoState
  | .add text priority nid now =>
      match addTodo s.todos text priority nid now with
      | .ok todos => { s with todos := todos }
      | .error _ => s
  | .toggle id => { s with todos := toggleTodo s.todos id }
  | .remove id => { s with todos := deleteTodo s.todos id }
  | .edit id text =>
      match updateTodo s.todos id text with
      | .ok todos => { s with todos := todos }
      | .error _ => s
  | .clearCompleted => { s with todos := clearCompleted s.todos }
  | .setFilter f => { s with filter := f }

/-- Initial store state: empty collection, filter `all`. -/
def initialState : TodoState := { todos := [], filter := .all }

/-- Run a sequence of commands from the initial state. -/
def run (cmds : List Cmd) : TodoState := cmds.foldl applyCmd initialState

/-- JSON values as needed by the `storageService` schema (strings, booleans,
arrays, objects). The blob stored in localStorage is kept as a parsed JSON
value: `JSON.parse (JSON.stringify v) = v` is the external JSON library's
contract, so the string layer is elided. -/
inductive Json where
  | str (s : String)
  | bool (b : Bool)
  | arr (items : List Json)
  | obj (fields : List (String × Json))

/-- Model of `Date.prototype.toJSON` (ISO formatting) used by
`JSON.stringify`: an injective textual form of the epoch milliseconds. -/
def isoOfDate (ms : Nat) : String := toString ms

/-- Model of `new Date(s).getTime()` applied by `getTodos` to the stored
date strings. -/
def dateOfIso (s : String) : Nat := s.toNat?.getD 0

/-- Serialization of the priority enumeration (its JS string value). -/
def priorityToStr : Priority → String
  | .low => "low"
  | .medium => "medium"
  | .high => "high"

/-- Reading a priority string back from a parsed JSON field. -/
def strToPriority (s : String) : Option Priority :=
  if s == "low" then some .low
  else if s == "medium" then some .medium
  else if s == "high" then some .high
  else none

/-- Effect of `JSON.stringify` on one `Todo` object: each field in declaration
order, `Date` fields via `toJSON`, and the optional `priority` key omitted
when the property is `undefined`. -/
def encodeTodo (t : Todo) : Json :=
  Json.obj
    ([("id", Json.str t.id),
      ("text", Json.str t.text),
      ("completed", Json.bool t.completed),
      ("createdAt", Json.str (isoOfDate t.createdAt)),
      ("updatedAt", Json.str (isoOfDate t.updatedAt))] ++
      (match t.priority with
       | none => []
       | some p => [("priority", Json.str (priorityToStr p))]))

/-- Field access on a parsed JSON object (`todo.id`, `todo.createdAt`, ...). -/
def getField (j : Json) (name : String) : Option Json :=
  match j with
  | .obj fields => fields.lookup name
  | _ => none

/-- Effect of `getTodos`'s mapping step on one parsed element:
`{ ...todo, createdAt: new Date(todo.createdAt), updatedAt: new Date(todo.updatedAt) }`,
read back at the `Todo` type. -/
def decodeTodo (j : Json) : Todo :=
  { id := match getField j "id" with | some (.str s) => s | _ => ""
    text := match getField j "text" with | some (.str s) => s | _ => ""
    completed := match getField j "completed" with | some (.bool b) => b | _ => false
    createdAt := match getField j "createdAt" with | some (.str s) => dateOfIso s | _ => 0
    updatedAt := match getField j "updatedAt" with | some (.str s) => dateOfIso s | _ => 0
    priority := match getField j "priority" with | some (.str s) => strToPriority s | _ => none }

/-- Embeds `storageService.saveTodos`: overwrite the stored blob with the
serialized array of todos (previous store contents are ignored). -/
def saveTodos (todos : List Todo) (_store : Option Json) : Option Json :=
  some (Json.arr (todos.map encodeTodo))

/-- Embeds `storageService.getTodos`: an absent blob yields `[]`; otherwise
the parsed array is mapped element-wise back to `Todo` records. -/
def getTodos (store : Option Json) : List Todo :=
  match store with
  | none => []
  | some (.arr items) => items.map decodeTodo
  | some _ => []

/-- Window index range produced by the windowing computation. -/
structure Window where
  startIndex : ℤ
  endIndex : ℤ
deriving Repr, DecidableEq

/-- Modelled from the spec: the windowing computation is performed by the
external `@tanstack/react-virtual` library (`useVirtualizer` called by
`VirtualTodoList` with `count`, fixed `estimateSize`, and `overscan = 5`),
whose implementation is not part of this repository. Per the spec,
`startIndex = max(0, floor(scrollOffset / itemSize) - overscan)` and
`endIndex = min(itemCount - 1, ceil((scrollOffset + viewportSize) / itemSize) + overscan)`,
with an empty window when `itemCount = 0`. -/
def computeWindow (itemCount itemSize viewportSize scrollOffset overscan : Nat) : Option Window :=
  if itemCount = 0 then none
  else
    some
      { startIndex := max 0 (⌊(scrollOffset : ℚ) / (itemSize : ℚ)⌋ - (overscan : ℤ))
        endIndex :=
          min ((itemCount : ℤ) - 1)
            (⌈((scrollOffset + viewportSize : Nat) : ℚ) / (itemSize : ℚ)⌉ + (overscan : ℤ)) }

/-- Predicate stated by the spec for each filter value: `active` means the
completion flag is false, `completed` means it is true, `all` is always
satisfied. Used to compare `filterTodos` against the spec's words. -/
def filterPred (filter : FilterType) (todo : Todo) : Bool :=
  match filter with
  | .active => !todo.completed
  | .completed => todo.completed
  | .all => true

theorem calculateStats_counts (todos : List Todo) :
    (calculateStats todos).active + (calculateStats todos).completed
        = (calculateStats todos).total ∧
    (calculateStats todos).total = todos.length := by
  refine ⟨?_, rfl⟩
  simp only [calculateStats]
  exact Nat.sub_add_cancel (List.length_filter_le _ _)

theorem calculateStats_rate (todos : List Todo) :
    (calculateStats todos).completionRate =
      if todos.length = 0 then (0 : ℚ)
      else ((jsRound ((((calculateStats todos).completed : ℚ)
            / ((calculateStats todos).total : ℚ)) * 100 * 10) : ℤ) : ℚ) / 10 := by
  by_cases h : todos.length = 0
  · simp [calculateStats, h, jsRound]
    norm_num
  · simp [calculateStats, h, Nat.pos_of_ne_zero h, jsRound]

/-- C1: for every command sequence from the empty collection, the derived
stats satisfy `active + completed = total`, `total = |Collection|`, and the
completion rate is `completed/total × 100` rounded to one decimal place
(0 when the collection is empty). -/
theorem stats_invariant_over_runs (cmds : List Cmd) :
    (calculateStats (run cmds).todos).active + (calculateStats (run cmds).todos).completed
        = (calculateStats (run cmds).todos).total ∧
    (calculateStats (run cmds).todos).total = (run cmds).todos.length ∧
    (calculateStats (run cmds).todos).completionRate =
      (if (run cmds).todos.length = 0 then (0 : ℚ)
       else ((jsRound ((((calculateStats (run cmds).todos).completed : ℚ)
             / ((calculateStats (run cmds).todos).total : ℚ)) * 100 * 10) : ℤ) : ℚ) / 10) :=
  ⟨(calculateStats_counts _).1, (calculateStats_counts _).2, calculateStats_rate _⟩

/-- C4: for every collection and filter, the filtered view is an
order-preserving subsequence of the collection, and membership in it is
exactly membership in the collection plus satisfaction of the filter
predicate. -/
theorem filteredView_sublist_and_membership (todos : List Todo) (filter : FilterType) :
    (filterTodos todos filter).Sublist todos ∧
    ∀ t : Todo, t ∈ filterTodos todos filter ↔ (t ∈ todos ∧ filterPred filter t = true) := by
  cases filter <;>
    exact ⟨by first | exact List.Sublist.refl _ | exact List.filter_sublist _,
           fun t => by simp [filterTodos, filterPred, List.mem_filter]⟩

theorem toggleTodo_toggleTodo (todos : List Todo) (id : String) :
    toggleTodo (toggleTodo todos id) id = todos := by
  induction todos with
  | nil => rfl
  | cons t ts ih =>
      simp only [toggleTodo, List.map_cons] at ih ⊢
      by_cases h : t.id == id
      · simpa [h, Bool.not_not] using ih
      · simpa [h] using ih

theorem toggleTodo_absent (todos : List Todo) (id : String)
    (h : ∀ t ∈ todos, t.id ≠ id) : toggleTodo todos id = todos := by
  induction todos with
  | nil => rfl
  | cons t ts ih =>
      have ht : (t.id == id) = false := by
        simpa using h t (List.mem_cons_self t ts)
      simp only [toggleTodo, List.map_cons, ht, Bool.false_eq_true, if_false] at ih ⊢
      rw [ih fun x hx => h x (List.mem_cons_of_mem t hx)]

/-- C6: toggling the same id twice restores every record exactly (completion
flag and all other fields), and toggling an id no record carries is a no-op
producing no error. -/
theorem toggle_twice_restores (todos : List Todo) (id : String) :
    toggleTodo (toggleTodo todos id) id = todos ∧
    ((∀ t ∈ todos, t.id ≠ id) → toggleTodo todos id = todos) :=
  ⟨toggleTodo_toggleTodo todos id, toggleTodo_absent todos id⟩

/-- Concrete instance for the toggle theorem: a two-record list, toggled
twice on a present id and once on an absent id. -/
theorem toggle_twice_restores_witness :
    (toggleTodo (toggleTodo
        [{ id := "a", text := "one", completed := false, createdAt := 1, updatedAt := 1,
           priority := some .high },
         { id := "b", text := "two", completed := true, createdAt := 2, updatedAt := 2,
           priority := none }] "a") "a" =
      [{ id := "a", text := "one", completed := false, createdAt := 1, updatedAt := 1,
         priority := some .high },
       { id := "b", text := "two", completed := true, createdAt := 2, updatedAt := 2,
         priority := none }]) ∧
    (toggleTodo
        [{ id := "a", text := "one", completed := false, createdAt := 1, updatedAt := 1,
           priority := some .high },
         { id := "b", text := "two", completed := true, createdAt := 2, updatedAt := 2,
           priority := none }] "zz" =
      [{ id := "a", text := "one", completed := false, createdAt := 1, updatedAt := 1,
         priority := some .high },
       { id := "b", text := "two", completed := true, createdAt := 2, updatedAt := 2,
         priority := none }]) :=
  ⟨(toggle_twice_restores _ "a").1, (toggle_twice_restores _ "zz").2 (by decide)⟩

theorem addTodo_eq (todos : List Todo) (text : String) (priority : Option Priority)
    (nid : String) (now : Nat) :
    addTodo todos text priority nid now =
      if (jsTrim text).isEmpty then .error "Todo text cannot be empty"
      else if 200 < (jsTrim text).length then .error "Todo text cannot exceed 200 characters"
      else .ok (todos ++ [createTodo text priority nid now]) := by
  by_cases h1 : (jsTrim text).isEmpty <;> by_cases h2 : 200 < (jsTrim text).length <;>
    simp [addTodo, validateTodoText, h1, h2]

theorem updateTodo_eq (todos : List Todo) (id text : String) :
    updateTodo todos id text =
      if (jsTrim text).isEmpty then .error "Todo text cannot be empty"
      else if 200 < (jsTrim text).length then .error "Todo text cannot exceed 200 characters"
      else .ok (todos.map
        (fun todo => if todo.id == id then { todo with text := text } else todo)) := by
  by_cases h1 : (jsTrim text).isEmpty <;> by_cases h2 : 200 < (jsTrim text).length <;>
    simp [updateTodo, validateTodoText, h1, h2]

/-- C2: `add` fails exactly when the trimmed text is empty or longer than 200
characters; the error carries a nonempty human-readable message and the store
state is unchanged; on every other input it succeeds, appending one record
(whose id is the freshly generated one) to the end, growing the collection by
exactly 1. -/
theorem add_validation (s : TodoState) (text : String) (priority : Option Priority)
    (nid : String) (now : Nat) :
    (((jsTrim text).isEmpty = true ∨ 200 < (jsTrim text).length) ↔
        ∃ msg, addTodo s.todos text priority nid now = .error msg) ∧
    (∀ msg, addTodo s.todos text priority nid now = .error msg → msg ≠ "") ∧
    (((jsTrim text).isEmpty = true ∨ 200 < (jsTrim text).length) →
        applyCmd s (.add text priority nid now) = s) ∧
    (¬((jsTrim text).isEmpty = true ∨ 200 < (jsTrim text).length) →
        addTodo s.todos text priority nid now
            = .ok (s.todos ++ [createTodo text priority nid now]) ∧
        (createTodo text priority nid now).id = nid ∧
        (s.todos ++ [createTodo text priority nid now]).length = s.todos.length + 1) := by
  rw [addTodo_eq]
  by_cases h1 : (jsTrim text).isEmpty <;> by_cases h2 : 200 < (jsTrim text).length <;>
    refine ⟨?_, ?_, ?_, ?_⟩ <;>
      simp [applyCmd, addTodo_eq, createTodo, h1, h2]

/-- Concrete instance for the add theorem: whitespace-only text leaves the
state unchanged; valid text appends one record. -/
theorem add_validation_witness :
    applyCmd { todos := [], filter := .all } (Cmd.add "   " none "u1" 5)
        = { todos := [], filter := .all } ∧
    addTodo ([] : List Todo) "valid" none "u1" 5
        = .ok ([] ++ [createTodo "valid" none "u1" 5]) :=
  ⟨(add_validation { todos := [], filter := .all } "   " none "u1" 5).2.2.1
      (Or.inl (by decide)),
   ((add_validation { todos := [], filter := .all } "valid" none "u1" 5).2.2.2
      (by decide)).1⟩

/-- C3: `edit` preserves the id, completion flag, and creation timestamp of
every record in the collection, and on validation failure it signals a
`ValidationError` and the whole store state is unchanged. -/
theorem edit_preserves_frame (s : TodoState) (id text : String) :
    List.Forall₂
      (fun a b => a.id = b.id ∧ a.completed = b.completed ∧ a.createdAt = b.createdAt)
      (applyCmd s (.edit id text)).todos s.todos ∧
    ((validateTodoText text).valid = false →
      (∃ msg, updateTodo s.todos id text = .error msg) ∧ applyCmd s (.edit id text) = s) := by
  constructor
  · by_cases hv : (validateTodoText text).valid
    · have hs : applyCmd s (.edit id text) = { s with todos := s.todos.map (fun todo => if todo.id == id then { todo with text := text } else todo) } := by
        simp [applyCmd, updateTodo, hv]
      rw [hs]
      refine List.forall₂_map_left_iff.mpr (List.forall₂_same.mpr fun x _ => ?_)
      by_cases hx : x.id == id <;> simp [hx]
    · have hs : applyCmd s (.edit id text) = s := by
        simp [applyCmd, updateTodo, hv]
      rw [hs, List.forall₂_same]
      exact fun x _ => ⟨rfl, rfl, rfl⟩
  · intro hv
    refine ⟨⟨(validateTodoText text).error.getD "", ?_⟩, ?_⟩ <;>
      simp [applyCmd, updateTodo, hv]

/-- Sample record used by concrete witness instances. -/
def sampleA : Todo :=
  { id := "a", text := "one", completed := false, createdAt := 1, updatedAt := 1,
    priority := some .high }

/-- Second sample record used by concrete witness instances. -/
def sampleB : Todo :=
  { id := "b", text := "two", completed := true, createdAt := 2, updatedAt := 2,
    priority := none }

/-- Concrete instance for the edit frame theorem: an empty edit text fails
validation with an error and leaves a one-record store untouched. -/
theorem edit_preserves_frame_witness :
    (∃ msg, updateTodo [sampleA] "a" "" = .error msg) ∧
    applyCmd { todos := [sampleA], filter := .all } (Cmd.edit "a" "")
        = { todos := [sampleA], filter := .all } :=
  (edit_preserves_frame { todos := [sampleA], filter := .all } "a" "").2 (by decide)

/-- C9: every record produced by a successful `add` has `completed = false`,
text equal to the trimmed input, the given priority, and equal creation and
update timestamps. -/
theorem add_record_shape (todos : List Todo) (text : String) (priority : Option Priority)
    (nid : String) (now : Nat) (h : (validateTodoText text).valid = true) :
    ∃ r : Todo, addTodo todos text priority nid now = .ok (todos ++ [r]) ∧
      r.completed = false ∧ r.text = jsTrim text ∧ r.priority = priority ∧
      r.createdAt = r.updatedAt :=
  ⟨createTodo text priority nid now, by simp [addTodo, h], rfl, rfl, rfl, rfl⟩

/-- Concrete instance for the add record-shape theorem. -/
theorem add_record_shape_witness :
    ∃ r : Todo, addTodo [] " milk " (some .high) "u1" 7 = .ok ([] ++ [r]) ∧
      r.completed = false ∧ r.text = jsTrim " milk " ∧ r.priority = some .high ∧
      r.createdAt = r.updatedAt :=
  add_record_shape [] " milk " (some .high) "u1" 7 (by decide)

/-- String of 200 `x` characters followed by a space: passes validation (its
trimmed length is 200) yet its raw length is 201 and it differs from its own
trim. -/
def paddedLongText : String := ⟨List.replicate 200 'x' ++ [' ']⟩

set_option maxRecDepth 10000 in
/-- C10: a successful `edit` stores the new text exactly as given (validation
ran on the trimmed text, but the raw text is what is written) and leaves
`updatedAt` unchanged; and there are texts that pass validation while
carrying trailing whitespace and a raw length above 200, so edited records
can hold such text, unlike records produced by `add`. -/
theorem edit_stores_raw_text (todos : List Todo) (id text : String)
    (h : (validateTodoText text).valid = true) :
    (∃ result, updateTodo todos id text = .ok result ∧
      List.Forall₂
        (fun a b => (a.text = if b.id == id then text else b.text) ∧
          a.updatedAt = b.updatedAt ∧ a.id = b.id)
        result todos) ∧
    ((validateTodoText paddedLongText).valid = true ∧
      200 < paddedLongText.length ∧ jsTrim paddedLongText ≠ paddedLongText) := by
  refine ⟨⟨todos.map (fun todo => if todo.id == id then { todo with text := text } else todo),
      by simp [updateTodo, h], ?_⟩, by decide, by decide, by decide⟩
  refine List.forall₂_map_left_iff.mpr (List.forall₂_same.mpr fun x _ => ?_)
  by_cases hx : x.id == id <;> simp [hx]

/-- Concrete instance for the raw-text edit theorem: editing a record with a
text that has surrounding whitespace. -/
theorem edit_stores_raw_text_witness :
    (∃ result, updateTodo [sampleA] "a" " new " = .ok result ∧
      List.Forall₂
        (fun a b => (a.text = if b.id == "a" then " new " else b.text) ∧
          a.updatedAt = b.updatedAt ∧ a.id = b.id)
        result [sampleA]) ∧
    ((validateTodoText paddedLongText).valid = true ∧
      200 < paddedLongText.length ∧ jsTrim paddedLongText ≠ paddedLongText) :=
  edit_stores_raw_text [sampleA] "a" " new " (by decide)

theorem decode_encode_content (t : Todo) :
    (decodeTodo (encodeTodo t)).id = t.id ∧ (decodeTodo (encodeTodo t)).text = t.text ∧
    (decodeTodo (encodeTodo t)).completed = t.completed ∧
    (decodeTodo (encodeTodo t)).priority = t.priority := by
  cases t with
  | mk id text completed createdAt updatedAt priority =>
      cases priority with
      | none => exact ⟨rfl, rfl, rfl, rfl⟩
      | some p => cases p <;> exact ⟨rfl, rfl, rfl, rfl⟩

/-- C7: `saveTodos` followed by `getTodos` reproduces a collection with the
same identifiers, texts, completion flags, and priorities, in the same
order, whatever the previous store contents were. -/
theorem save_then_load_content (todos : List Todo) (store : Option Json) :
    (getTodos (saveTodos todos store)).map (fun t => (t.id, t.text, t.completed, t.priority))
      = todos.map (fun t => (t.id, t.text, t.completed, t.priority)) := by
  simp only [saveTodos, getTodos, List.map_map]
  refine List.map_congr_left fun t _ => ?_
  have h := decode_encode_content t
  simp [Function.comp, h.1, h.2.1, h.2.2.1, h.2.2.2]

/-- C5: the windowing computation (modelled from the spec, the implementation
being the external virtualization library) yields
`startIndex = max(0, floor(scrollOffset/itemSize) - overscan)` and
`endIndex = min(itemCount - 1, ceil((scrollOffset + viewportSize)/itemSize) + overscan)`,
an empty window when `itemCount = 0`, and in particular start 45 and end 63
for 1000 items of size 80, viewport 600, offset 4000, overscan 5. -/
theorem computeWindow_spec (itemCount itemSize viewportSize scrollOffset overscan : Nat) :
    (itemCount = 0 → computeWindow itemCount itemSize viewportSize scrollOffset overscan = none) ∧
    (itemCount ≠ 0 →
      computeWindow itemCount itemSize viewportSize scrollOffset overscan =
        some { startIndex := max 0 (⌊(scrollOffset : ℚ) / (itemSize : ℚ)⌋ - (overscan : ℤ)),
               endIndex := min ((itemCount : ℤ) - 1)
                 (⌈((scrollOffset : ℚ) + (viewportSize : ℚ)) / (itemSize : ℚ)⌉ + (overscan : ℤ)) }) ∧
    computeWindow 1000 80 600 4000 5 = some { startIndex := 45, endIndex := 63 } := by
  refine ⟨fun h => by simp [computeWindow, h], fun h => ?_, ?_⟩
  · simp [computeWindow, h]
  · have hc : ⌈(115 : ℚ) / 2⌉ = (58 : ℤ) := by
      rw [Int.ceil_eq_iff]
      norm_num
    norm_num [computeWindow, hc]

/-- Concrete instances for the windowing theorem: the empty and nonempty
cases at explicit inputs. -/
theorem computeWindow_spec_witness :
    computeWindow 0 80 600 0 5 = none ∧
    computeWindow 1000 80 600 4000 5 = some { startIndex := 45, endIndex := 63 } :=
  ⟨(computeWindow_spec 0 80 600 0 5).1 rfl,
   (computeWindow_spec 1000 80 600 4000 5).2.2⟩

end TodoApp
